import Mathlib

/-!
# Verification of the solar-system simulation's orbital kinematics

Shallow embedding of the simulation logic in
`src/components/SolarSystem.jsx`:

* the per-frame clock-advance step of `Scene` (`useFrame` callback),
* the per-frame orbital kinematics update of `EarthSystem`,
* the reset button and time-speed slider of `UIOverlay`,
* the derived day/year readout of `UIOverlay`.

JavaScript numbers are modelled as real numbers; `Math.cos`, `Math.sin`,
`Math.sqrt`, `Math.floor` and `Math.PI` become their exact counterparts on
`ℝ`.  Scene-graph transform nodes become an explicit `BodyPose` record whose
fields are exactly the position/rotation components the frame callback
writes (components the callback never writes, such as the `y` coordinate of
the Earth's and the Moon's positions, are carried through unchanged, as the
mutable scene-graph nodes do).
-/

namespace SolarSim

noncomputable section

open Real

/-- `ORBITAL_PERIODS.EARTH_YEAR` (SolarSystem.jsx line 10). -/
def EARTH_YEAR : ℝ := 365.25

/-- `ORBITAL_PERIODS.EARTH_DAY` (SolarSystem.jsx line 11). -/
def EARTH_DAY : ℝ := 1

/-- `ORBITAL_PERIODS.MOON_ORBIT` (SolarSystem.jsx line 12). -/
def MOON_ORBIT : ℝ := 27.3

/-- `ORBITAL_PERIODS.SATELLITE_ORBIT` (SolarSystem.jsx line 13). -/
def SATELLITE_ORBIT : ℝ := 0.5

/-- `earthOrbitRadius` constant of `EarthSystem` (line 148). -/
def earthOrbitRadius : ℝ := 25

/-- `moonOrbitRadius` constant of `EarthSystem` (line 149). -/
def moonOrbitRadius : ℝ := 2.5

/-- `satelliteOrbitRadius` constant of `EarthSystem` (line 150). -/
def satelliteOrbitRadius : ℝ := 1.3

/-- `satelliteInclination` constant of `EarthSystem` (line 151). -/
def satelliteInclination : ℝ := 0.5

/-- A 3D position, mirroring a `THREE.Vector3`. -/
structure Vec3 where
  x : ℝ
  y : ℝ
  z : ℝ

/-- The transform components that `EarthSystem`'s frame callback writes:
Earth orbit-group position, Earth spin rotation about `y`, Moon position
(relative to the Earth group), satellite position (relative to the Earth
group) and satellite rotation about `y`. -/
structure BodyPose where
  earthOrbitPos : Vec3
  earthSpinRotY : ℝ
  moonPos : Vec3
  satPos : Vec3
  satRotY : ℝ

/-- The scene graph's pose before any frame has run: groups and meshes are
created at the origin with zero rotation. -/
def initPose : BodyPose :=
  { earthOrbitPos := ⟨0, 0, 0⟩
    earthSpinRotY := 0
    moonPos := ⟨0, 0, 0⟩
    satPos := ⟨0, 0, 0⟩
    satRotY := 0 }

/-- The angle formula `(time / period) * Math.PI * 2` used for every body
(lines 156, 160, 162, 166). -/
def orbitAngle (time period : ℝ) : ℝ :=
  time / period * π * 2

/-- One invocation of `EarthSystem`'s `useFrame` callback (lines 153–179)
at clock value `time`, acting on the current pose `prev`.  It writes

* `earthOrbitRef.position.x/z` from `earthAngle` (lines 157–158),
* `earthSpinRef.rotation.y` (line 160),
* `moonRef.position.x/z` from `moonAngle` (lines 163–164),
* `satelliteRef.position.x/y/z` from `satAngle` and the inclination
  (lines 170–172),
* `satelliteRef.rotation.y = -satAngle + π/2` (line 173).

The `y` components of the Earth and Moon positions are not assigned and
keep their previous values. -/
def kinematicsUpdate (time : ℝ) (prev : BodyPose) : BodyPose :=
  let earthAngle := orbitAngle time EARTH_YEAR
  let moonAngle := orbitAngle time MOON_ORBIT
  let satAngle := orbitAngle time SATELLITE_ORBIT
  let cosInc := Real.cos satelliteInclination
  let sinInc := Real.sin satelliteInclination
  { earthOrbitPos :=
      ⟨Real.cos earthAngle * earthOrbitRadius,
       prev.earthOrbitPos.y,
       Real.sin earthAngle * earthOrbitRadius⟩
    earthSpinRotY := orbitAngle time EARTH_DAY
    moonPos :=
      ⟨Real.cos moonAngle * moonOrbitRadius,
       prev.moonPos.y,
       Real.sin moonAngle * moonOrbitRadius⟩
    satPos :=
      ⟨Real.cos satAngle * satelliteOrbitRadius,
       Real.sin satAngle * sinInc * satelliteOrbitRadius,
       Real.sin satAngle * cosInc * satelliteOrbitRadius⟩
    satRotY := -satAngle + π / 2 }

/-- Running the frame callback once per element of `ts`, in order, starting
from pose `p` (successive frames of the render loop). -/
def runFrames (ts : List ℝ) (p : BodyPose) : BodyPose :=
  ts.foldl (fun q u => kinematicsUpdate u q) p

/-- The camera-mode enumeration: `'overview'` and `'earth'`. -/
inductive CameraMode where
  | overview : CameraMode
  | earth : CameraMode
deriving DecidableEq

/-- The mutable UI state of the top-level `SolarSystem` component:
`timeRef.current`, `isPaused`, `timeSpeed`, `cameraMode`
(lines 744–747). -/
structure SimState where
  time : ℝ
  paused : Bool
  timeSpeed : ℝ
  cameraMode : CameraMode

/-- The per-frame speed selection
`cameraMode === 'earth' ? 0.1 : timeSpeed` (line 205). -/
def effectiveSpeed (mode : CameraMode) (timeSpeed : ℝ) : ℝ :=
  match mode with
  | CameraMode.earth => 0.1
  | CameraMode.overview => timeSpeed

/-- The clock-advance step of `Scene`'s `useFrame` callback (lines 203–207):
when not paused, `timeRef.current += delta * speed`; when paused, nothing
happens to the clock. -/
def advanceClock (s : SimState) (delta : ℝ) : SimState :=
  if s.paused then s
  else { s with time := s.time + delta * effectiveSpeed s.cameraMode s.timeSpeed }

/-- The RESET button's click handler `timeRef.current = 0`
(lines 731–736). -/
def resetTime (s : SimState) : SimState :=
  { s with time := 0 }

/-- The day readout `Math.floor(timeRef.current)` (line 614). -/
def displayDay (t : ℝ) : ℤ := ⌊t⌋

/-- The year readout `Math.floor(timeRef.current / 365) + 1` (line 615). -/
def displayYear (t : ℝ) : ℤ := ⌊t / 365⌋ + 1

/-- The slider's `min="0.1"` attribute (line 715). -/
def sliderMin : ℝ := 0.1

/-- The slider's `max="2"` attribute (line 716). -/
def sliderMax : ℝ := 2

/-- The slider's `step="0.1"` attribute (line 717). -/
def sliderStep : ℝ := 0.1

/-- The values the time-speed range input can set: `min + step * k` for a
whole number of steps `k`, not exceeding `max` (HTML range-input
semantics for `min="0.1" max="2" step="0.1"`, lines 713–721). -/
def sliderSettable (v : ℝ) : Prop :=
  ∃ k : ℕ, v = sliderMin + sliderStep * k ∧ sliderMin + sliderStep * k ≤ sliderMax

/-- Each run of the frame callback overwrites every time-dependent field,
so a run at time `t` erases the effect of any single earlier run. -/
theorem kinematicsUpdate_overwrite (t s : ℝ) (p : BodyPose) :
    kinematicsUpdate t (kinematicsUpdate s p) = kinematicsUpdate t p :=
  rfl

/-- A run at time `t` erases the effect of any finite sequence of earlier
runs. -/
theorem kinematicsUpdate_runFrames (t : ℝ) (ts : List ℝ) (p : BodyPose) :
    kinematicsUpdate t (runFrames ts p) = kinematicsUpdate t p := by
  induction ts generalizing p with
  | nil => rfl
  | cons u ts ih =>
      calc kinematicsUpdate t (runFrames (u :: ts) p)
          = kinematicsUpdate t (runFrames ts (kinematicsUpdate u p)) := rfl
        _ = kinematicsUpdate t (kinematicsUpdate u p) := ih (kinematicsUpdate u p)
        _ = kinematicsUpdate t p := kinematicsUpdate_overwrite t u p

/-- C1: for every frame update with `paused = false`, time speed `s` and
frame delta `d`, the clock-advance step produces `oldClock + s·d` (where
`s` is the speed selected for that frame); with `paused = true` the state,
in particular the clock, is unchanged regardless of `d`. -/
theorem clock_advance_exact (s : SimState) (d : ℝ) :
    (s.paused = false →
      (advanceClock s d).time =
        s.time + effectiveSpeed s.cameraMode s.timeSpeed * d) ∧
    (s.paused = true → advanceClock s d = s) := by
  constructor
  · intro h
    simp only [advanceClock, h, Bool.false_eq_true, if_false]
    ring
  · intro h
    simp [advanceClock, h]

/-- Witness for C1 at a concrete unpaused state and a concrete paused
state. -/
theorem clock_advance_exact_witness :
    (advanceClock ⟨0, false, 1, CameraMode.overview⟩ 2).time =
      (⟨0, false, 1, CameraMode.overview⟩ : SimState).time +
        effectiveSpeed CameraMode.overview 1 * 2 ∧
    advanceClock ⟨7, true, 1, CameraMode.overview⟩ 2 =
      (⟨7, true, 1, CameraMode.overview⟩ : SimState) :=
  ⟨(clock_advance_exact ⟨0, false, 1, CameraMode.overview⟩ 2).1 rfl,
   (clock_advance_exact ⟨7, true, 1, CameraMode.overview⟩ 2).2 rfl⟩

/-- C2: each body's position and rotation written by the kinematics update
is a pure function of the clock value `t` and the fixed orbital
parameters: running the update at `t` after any finite history of earlier
updates (in particular a second run at the same `t`) produces exactly the
pose a single run at `t` produces — the update is memoryless. -/
theorem kinematics_memoryless (t : ℝ) (ts : List ℝ) (p : BodyPose) :
    kinematicsUpdate t (runFrames ts p) = kinematicsUpdate t p :=
  kinematicsUpdate_runFrames t ts p

/-- C3 counterexample: the claim says the time-speed control can take any
value in `[0.1, 50]`, but the slider's `max` attribute is `2`: the value
`50` lies in `[0.1, 50]` yet no slider position sets it. -/
theorem slider_range_counterexample :
    (50 : ℝ) ∈ Set.Icc (0.1 : ℝ) 50 ∧ ¬ sliderSettable 50 := by
  constructor
  · constructor <;> norm_num
  · rintro ⟨k, hv, hle⟩
    rw [← hv] at hle
    norm_num [sliderMax] at hle

/-- C3 (amended): the time-speed slider ranges over `[0.1, 2]` in steps of
`0.1`: every value it can set lies in `[0.1, 2]`, and each value
`0.1 + 0.1·k` for `k = 0, …, 19` is settable. -/
theorem slider_range (v : ℝ) (hv : sliderSettable v) :
    (sliderMin ≤ v ∧ v ≤ sliderMax) ∧
    ∀ k : ℕ, k ≤ 19 → sliderSettable (sliderMin + sliderStep * k) := by
  constructor
  · obtain ⟨k, hk, hle⟩ := hv
    subst hk
    refine ⟨?_, hle⟩
    have : (0 : ℝ) ≤ (k : ℝ) := Nat.cast_nonneg k
    simp only [sliderMin, sliderStep]
    nlinarith
  · intro k hk
    refine ⟨k, rfl, ?_⟩
    have : (k : ℝ) ≤ 19 := by exact_mod_cast hk
    simp only [sliderMin, sliderStep, sliderMax]
    nlinarith

/-- Witness for C3's amended theorem at the settable value `2`
(`k = 19`). -/
theorem slider_range_witness :
    sliderSettable 2 ∧
    ((sliderMin ≤ (2 : ℝ) ∧ (2 : ℝ) ≤ sliderMax) ∧
      ∀ k : ℕ, k ≤ 19 → sliderSettable (sliderMin + sliderStep * k)) := by
  have h2 : sliderSettable 2 := by
    refine ⟨19, ?_, ?_⟩ <;> norm_num [sliderMin, sliderStep, sliderMax]
  exact ⟨h2, slider_range 2 h2⟩

/-- C4: the reset operation sets the clock to `0`, and a kinematics run at
the reset clock value — after any finite history of frames starting from
the initial scene pose — yields exactly the `t = 0` pose: no hidden
accumulated state survives a reset. -/
theorem reset_restores_initial_pose (s : SimState) (ts : List ℝ) :
    (resetTime s).time = 0 ∧
    kinematicsUpdate (resetTime s).time (runFrames ts initPose) =
      kinematicsUpdate 0 initPose :=
  ⟨rfl, kinematicsUpdate_runFrames 0 ts initPose⟩

/-- C5: for `t ≥ 0` and period `p > 0`, the orbit angle satisfies
`angle(t + p, p) = angle(t, p) + 2π` — the two angles agree modulo `2π`,
so each orbit is periodic with its own period. -/
theorem orbit_angle_periodic (t p : ℝ) (ht : 0 ≤ t) (hp : 0 < p) :
    orbitAngle (t + p) p = orbitAngle t p + 2 * π := by
  unfold orbitAngle
  field_simp
  ring

/-- Witness for C5 at `t = 0`, `p = 27.3` (the Moon's period). -/
theorem orbit_angle_periodic_witness :
    (0 : ℝ) ≤ 0 ∧ (0 : ℝ) < 27.3 ∧
    orbitAngle (0 + 27.3) 27.3 = orbitAngle 0 27.3 + 2 * π :=
  ⟨le_refl 0, by norm_num, orbit_angle_periodic 0 27.3 (le_refl 0) (by norm_num)⟩

/-- C6: at `t = 0` every body's orbit angle is `0`, and the kinematics run
from the initial pose places the Earth at `(25, 0, 0)`, the Moon at
`(2.5, 0, 0)` relative to the Earth, and the satellite at `(1.3, 0, 0)`
relative to the Earth. -/
theorem initial_pose_positions :
    orbitAngle 0 EARTH_YEAR = 0 ∧
    orbitAngle 0 MOON_ORBIT = 0 ∧
    orbitAngle 0 SATELLITE_ORBIT = 0 ∧
    (kinematicsUpdate 0 initPose).earthOrbitPos = ⟨25, 0, 0⟩ ∧
    (kinematicsUpdate 0 initPose).moonPos = ⟨2.5, 0, 0⟩ ∧
    (kinematicsUpdate 0 initPose).satPos = ⟨1.3, 0, 0⟩ := by
  have hang : ∀ p : ℝ, orbitAngle 0 p = 0 := by
    intro p
    simp [orbitAngle]
  refine ⟨hang _, hang _, hang _, ?_, ?_, ?_⟩ <;>
    simp [kinematicsUpdate, hang, initPose,
      earthOrbitRadius, moonOrbitRadius, satelliteOrbitRadius]

/-- C7: the inclined-orbit position
`(cos a · r, sin a · sin i · r, sin a · cos i · r)` used for the satellite
has magnitude exactly `r = satelliteOrbitRadius` for every angle `a` and
inclination `i`; in particular the satellite position written by the
kinematics update lies on the sphere of radius `1.3` at every clock
value. -/
theorem satellite_on_sphere :
    (∀ a i : ℝ,
      Real.sqrt ((Real.cos a * satelliteOrbitRadius) ^ 2 +
        (Real.sin a * Real.sin i * satelliteOrbitRadius) ^ 2 +
        (Real.sin a * Real.cos i * satelliteOrbitRadius) ^ 2) =
        satelliteOrbitRadius) ∧
    ∀ (t : ℝ) (p : BodyPose),
      Real.sqrt ((kinematicsUpdate t p).satPos.x ^ 2 +
        (kinematicsUpdate t p).satPos.y ^ 2 +
        (kinematicsUpdate t p).satPos.z ^ 2) = satelliteOrbitRadius := by
  have key : ∀ a i : ℝ,
      Real.sqrt ((Real.cos a * satelliteOrbitRadius) ^ 2 +
        (Real.sin a * Real.sin i * satelliteOrbitRadius) ^ 2 +
        (Real.sin a * Real.cos i * satelliteOrbitRadius) ^ 2) =
        satelliteOrbitRadius := by
    intro a i
    have hsq : (Real.cos a * satelliteOrbitRadius) ^ 2 +
        (Real.sin a * Real.sin i * satelliteOrbitRadius) ^ 2 +
        (Real.sin a * Real.cos i * satelliteOrbitRadius) ^ 2 =
        satelliteOrbitRadius ^ 2 := by
      have h1 := Real.sin_sq_add_cos_sq i
      have h2 := Real.cos_sq_add_sin_sq a
      calc (Real.cos a * satelliteOrbitRadius) ^ 2 +
            (Real.sin a * Real.sin i * satelliteOrbitRadius) ^ 2 +
            (Real.sin a * Real.cos i * satelliteOrbitRadius) ^ 2
          = (Real.cos a ^ 2 +
              Real.sin a ^ 2 * (Real.sin i ^ 2 + Real.cos i ^ 2)) *
              satelliteOrbitRadius ^ 2 := by ring
        _ = (Real.cos a ^ 2 + Real.sin a ^ 2) * satelliteOrbitRadius ^ 2 := by
              rw [h1, mul_one]
        _ = satelliteOrbitRadius ^ 2 := by rw [h2, one_mul]
    rw [hsq]
    exact Real.sqrt_sq (by norm_num [satelliteOrbitRadius])
  refine ⟨key, ?_⟩
  intro t p
  simpa [kinematicsUpdate, mul_assoc, mul_comm, mul_left_comm] using
    key (orbitAngle t SATELLITE_ORBIT) satelliteInclination

/-- C8: whenever the camera mode is `'earth'` (planet focus) and the
simulation is not paused, the clock advances at exactly `0.1` days per
real second whatever the slider's value is; the speed selection uses the
slider value only in `'overview'` mode. -/
theorem focus_mode_fixed_speed :
    (∀ (s : SimState) (d : ℝ),
      s.cameraMode = CameraMode.earth → s.paused = false →
        (advanceClock s d).time = s.time + 0.1 * d) ∧
    (∀ v : ℝ, effectiveSpeed CameraMode.earth v = 0.1) ∧
    ∀ v : ℝ, effectiveSpeed CameraMode.overview v = v := by
  refine ⟨?_, fun v => rfl, fun v => rfl⟩
  intro s d hm hp
  simp only [advanceClock, hp, Bool.false_eq_true, if_false, hm,
    effectiveSpeed]
  ring

/-- Witness for C8 at a concrete unpaused planet-focus state with slider
value `2`. -/
theorem focus_mode_fixed_speed_witness :
    (advanceClock ⟨0, false, 2, CameraMode.earth⟩ 10).time =
      (⟨0, false, 2, CameraMode.earth⟩ : SimState).time + 0.1 * 10 :=
  focus_mode_fixed_speed.1 ⟨0, false, 2, CameraMode.earth⟩ 10 rfl rfl

/-- C9: for every clock value `t ≥ 0`, the readout shows day
`floor(t)` and year `floor(day / 365) + 1` where `day = floor(t)` — the
code's `floor(t / 365) + 1` coincides with `floor(floor(t) / 365) + 1`. -/
theorem display_day_year (t : ℝ) (ht : 0 ≤ t) :
    displayDay t = ⌊t⌋ ∧
    displayYear t = ⌊(displayDay t : ℝ) / 365⌋ + 1 := by
  refine ⟨rfl, ?_⟩
  have h365 : (0 : ℝ) ≤ 365 := by norm_num
  have h1 : ⌊t / 365⌋ = ((⌊t⌋₊ / 365 : ℕ) : ℤ) := by
    rw [← Int.natCast_floor_eq_floor (div_nonneg ht h365),
      Nat.floor_div_ofNat]
  have h2 : (displayDay t : ℝ) = ((⌊t⌋₊ : ℕ) : ℝ) := by
    simp only [displayDay, ← Int.natCast_floor_eq_floor ht, Int.cast_natCast]
  have h3 : ⌊((⌊t⌋₊ : ℕ) : ℝ) / 365⌋ = ((⌊t⌋₊ / 365 : ℕ) : ℤ) := by
    rw [← Int.natCast_floor_eq_floor
        (div_nonneg (Nat.cast_nonneg _) h365),
      Nat.floor_div_ofNat, Nat.floor_natCast]
  unfold displayYear
  rw [h1, h2, h3]

/-- Witness for C9 at `t = 400.5`: day `400`, year `2`. -/
theorem display_day_year_witness :
    (0 : ℝ) ≤ 400.5 ∧
    displayDay 400.5 = ⌊(400.5 : ℝ)⌋ ∧
    displayYear 400.5 = ⌊(displayDay 400.5 : ℝ) / 365⌋ + 1 :=
  ⟨by norm_num, display_day_year 400.5 (by norm_num)⟩

/-- C10: the reset operation modifies only the clock (setting it to `0`):
the paused flag, the time-speed setting and the camera mode are exactly
those of the previous state, and the orbital parameters, being immutable
module constants, are untouched by any state operation. -/
theorem reset_frame_condition (s : SimState) :
    (resetTime s).time = 0 ∧
    (resetTime s).paused = s.paused ∧
    (resetTime s).timeSpeed = s.timeSpeed ∧
    (resetTime s).cameraMode = s.cameraMode :=
  ⟨rfl, rfl, rfl, rfl⟩

end

end SolarSim
